import Mathlib

/-!
Verification of the capture pipeline of the scraper repository.

The repository has two source files:
  * scraper.py: a single-file pipeline (run_pipeline, validate_response,
    extract_key_info) that replays the browser performance log to find the
    tracking API response and projects it to a summary record.
  * searates_scraper.py: a class-based scraper whose _get_captured_response
    runs three capture methods in order (in-page JavaScript buffer, CDP
    performance-log replay, cache-backed re-fetch) and whose
    _enable_network_capture arms network hooks before navigation.

Python values that the code manipulates are embedded as a JSON-like
inductive type; Python exceptions are embedded as Except String; the
browser/driver primitives each method calls are fields of a Session record
(every call site that can raise is an Except-valued field).
-/

namespace Scraper

/-- JSON-like values: the payloads, log entries and summary records the two
Python files manipulate (dicts keep their key insertion order). -/
inductive Json where
  | null
  | bool (b : Bool)
  | str (s : String)
  | num (n : Int)
  | arr (xs : List Json)
  | obj (kvs : List (String × Json))

/-- Python truthiness: None, False, 0, "", [] and \x7b\x7d are falsy. -/
def truthy : Json → Bool
  | .null => false
  | .bool b => b
  | .str s => !s.isEmpty
  | .num n => n != 0
  | .arr xs => !xs.isEmpty
  | .obj kvs => !kvs.isEmpty

/-- isinstance(x, dict). -/
def isObj : Json → Bool
  | .obj _ => true
  | _ => false

/-- d.get(k) on a value already known to be a dict (used only under an
isObj guard, mirroring the guarded call sites in _get_captured_response). -/
def objGet (j : Json) (k : String) : Option Json :=
  match j with
  | .obj kvs => (kvs.find? (fun kv => kv.1 == k)).map (fun kv => kv.2)
  | _ => none

/-- Python equality test of a (possibly absent) value against a string
literal: absent (None) or non-string values compare unequal. -/
def isStrEq (o : Option Json) (s : String) : Bool :=
  match o with
  | some (.str t) => t == s
  | _ => false

/-- Occurrence search used to embed the Python substring test "pat in s"
and the JavaScript url.includes(pat). -/
def sublistSearch (pat : List Char) : List Char → Bool
  | [] => pat.isEmpty
  | c :: cs => List.isPrefixOf pat (c :: cs) || sublistSearch pat cs

/-- Python "pat in s" for strings. -/
def hasSubstr (s pat : String) : Bool := sublistSearch pat.data s.data

/-- The hard-coded target endpoint substring, identical in both files. -/
def targetApi : String := "tracking-system/reverse/tracking"

/-!
Performance-log entries.  Both files iterate driver.get_log("performance"),
do message = json.loads(log["message"])["message"] inside try/except
(a parse failure skips the entry), then read message.get("method"),
message["params"]["response"]["url"], response.get("status") and
params["requestId"].  A missing key raises inside the same per-entry
try/except, which also just skips the entry.  An entry is therefore
selected exactly when it parses and all the accessed fields exist and
satisfy the tested conditions; we flatten the nested dicts into one record
of optional fields. -/
structure LogMsg where
  method : Option String
  url : Option String
  status : Option Int
  requestId : Option String

/-- A raw log line: none when json.loads of the entry fails. -/
abbrev RawLog := Option LogMsg

/-- Selection test of the searates _get_captured_response log scan
(lines 216-227): method is Network.responseReceived, the response url
contains the target substring, and requestId is present.  No status test. -/
def logHitSearates (l : RawLog) : Bool :=
  match l with
  | none => false
  | some m =>
    m.method == some "Network.responseReceived" &&
    (match m.url with
     | some u => hasSubstr u targetApi
     | none => false) &&
    m.requestId.isSome

/-- Selection test of the scraper.py run_pipeline log scan (lines 46-60):
same as the searates scan plus response.get("status") == 200. -/
def logHit200 (l : RawLog) : Bool :=
  match l with
  | none => false
  | some m =>
    m.method == some "Network.responseReceived" &&
    (match m.url with
     | some u => hasSubstr u targetApi
     | none => false) &&
    m.status == some 200 &&
    m.requestId.isSome

/-- The shared loop shape "for log in logs: ... break": the requestId of
the first entry passing the selection test, none when no entry passes. -/
def findRequestId (p : RawLog → Bool) (logs : List RawLog) : Option String :=
  match logs.find? p with
  | some (some m) => m.requestId
  | _ => none

/-!
The capture coordinator _get_captured_response (searates_scraper.py lines
165-312).  The driver primitives it calls are the fields of a Session;
each call that can raise is Except-valued (error = the raised exception's
message).  Method 3 re-reads performance.getEntries(), which is the same
browser state as the read in method 2, so both share the perfNames field.
The captured_at timestamp and the size_bytes field (a json.dumps length)
are environment metadata carried unchanged into the result dicts; they are
not modelled because no adjudication decision reads them. -/
structure Session where
  /-- execute_script returning window.__SEARATES_API__ or null (line 174). -/
  jsBackup : Except String Json
  /-- the names of performance.getEntries() read by the injected scripts
  (lines 201-206 and 259-264); the filter runs in the scripts and is
  embedded as perfFilter below. -/
  perfNames : Except String (List String)
  /-- driver.get_log("performance") (line 213). -/
  getLog : Except String (List RawLog)
  /-- Network.getResponseBody followed by json.loads (lines 230-234). -/
  respBody : String → Except String Json
  /-- the async cache-preferring fetch (lines 270-281); its JavaScript
  catch turns a fetch failure into Json.null. -/
  cachedFetch : Except String Json

/-- The filter both injected scripts apply to performance.getEntries():
e.name && e.name.includes(targetApi). -/
def perfFilter (names : List String) : List String :=
  names.filter (fun n => !n.isEmpty && hasSubstr n targetApi)

/-- The value _get_captured_response returns: either one of the success
dicts (success True, a source tag and the payload) or one of the failure
dicts (success False, an error string, a note, and for the rate-limit
branch the raw payload). -/
inductive CapResult where
  | success (source : String) (data : Json)
  | failure (error : String) (note : String) (rawResponse : Option Json)

def CapResult.isSuccess : CapResult → Bool
  | .success _ _ => true
  | _ => false

def CapResult.errorField : CapResult → Option String
  | .failure e _ _ => some e
  | _ => none

/-- The dict returned when every method produced nothing (lines 298-302). -/
def exhaustedResult : CapResult :=
  .failure "All capture methods exhausted" "HTML scraping captured all visible data" none

/-- Method 3, cache-backed re-fetch (lines 254-294): read the first
filtered performance entry url; when present, run the async force-cache
fetch and accept any truthy dict.  Every exception inside is caught and
falls to the exhausted return. -/
def method3 (s : Session) : CapResult :=
  match s.perfNames with
  | .error _ => exhaustedResult
  | .ok names =>
    match (perfFilter names).head? with
    | none => exhaustedResult
    | some _ =>
      match s.cachedFetch with
      | .error _ => exhaustedResult
      | .ok j => if truthy j && isObj j then .success "cached_fetch" j else exhaustedResult

/-- Method 2, CDP performance-log replay (lines 196-252): when a filtered
performance entry exists, scan get_log for the first target response and
fetch its body; any truthy parsed body is accepted (no status or schema
test here).  Every exception inside is caught and falls through to
method 3. -/
def method2 (s : Session) : CapResult :=
  match s.perfNames with
  | .error _ => method3 s
  | .ok names =>
    if (perfFilter names).isEmpty then method3 s
    else
      match s.getLog with
      | .error _ => method3 s
      | .ok logs =>
        match findRequestId logHitSearates logs with
        | none => method3 s
        | some rid =>
          match s.respBody rid with
          | .error _ => method3 s
          | .ok j => if truthy j then .success "cdp_performance_logs" j else method3 s

/-- The coordinator _get_captured_response (lines 165-312).  Method 1 reads
the in-page buffer; a truthy dict with status == "success" is returned as
captured, otherwise a dict with message == "API_KEY_LIMIT_REACHED" is
returned as the rate-limit failure, and any other value falls through to
method 2.  Method 1 has no try/except of its own, so an exception raised
by its execute_script call is caught only by the function-level handler
(lines 304-312), which returns the error dict without running methods 2
and 3. -/
def getCapturedResponse (s : Session) : CapResult :=
  match s.jsBackup with
  | .error e => .failure e "HTML data captured successfully" none
  | .ok j =>
    if truthy j && isObj j then
      if isStrEq (objGet j "status") "success" then
        .success "javascript_backup" j
      else if isStrEq (objGet j "message") "API_KEY_LIMIT_REACHED" then
        .failure "API_KEY_LIMIT_REACHED" "Free tier: 1 search/day" (some j)
      else method2 s
    else method2 s

/-!
The single-file pipeline scraper.py: validate_response (lines 114-118) and
extract_key_info (lines 120-177).  extract_key_info navigates the payload
with a mix of d.get(k, default) (total on dicts) and d[k] (raises KeyError
when absent); both raise on non-dicts.  Python exceptions are embedded as
Except String with the exception name in the message. -/

/-- d.get(k): ok (the value when present) on dicts, AttributeError
otherwise. -/
def jGet (j : Json) (k : String) : Except String (Option Json) :=
  match j with
  | .obj kvs => .ok ((kvs.find? (fun kv => kv.1 == k)).map (fun kv => kv.2))
  | _ => .error "AttributeError: get"

/-- d.get(k, default). -/
def jGetD (j : Json) (k : String) (d : Json) : Except String Json := do
  pure ((← jGet j k).getD d)

/-- d[k]: KeyError when the key is absent, TypeError on non-dicts. -/
def jIndex (j : Json) (k : String) : Except String Json :=
  match j with
  | .obj kvs =>
    match (kvs.find? (fun kv => kv.1 == k)).map (fun kv => kv.2) with
    | some v => .ok v
    | none => .error ("KeyError: " ++ k)
  | _ => .error "TypeError: value is not subscriptable"

/-- The string expected by Python + on a string operand. -/
def pyStr? : Json → Except String String
  | .str s => .ok s
  | _ => .error "TypeError: can only concatenate str"

/-- Python iteration "for x in j": lists yield elements, dicts yield their
keys, strings yield one-character strings, everything else raises. -/
def jIter : Json → Except String (List Json)
  | .arr xs => .ok xs
  | .obj kvs => .ok (kvs.map (fun kv => Json.str kv.1))
  | .str s => .ok (s.data.map (fun c => Json.str (String.singleton c)))
  | _ => .error "TypeError: object is not iterable"

/-- Hashable (dict-key-capable) JSON values. -/
def isScalar : Json → Bool
  | .null => true
  | .bool _ => true
  | .num _ => true
  | .str _ => true
  | _ => false

/-- Python == restricted to hashable scalar values (the only values that
reach a dict lookup without raising). -/
def scalarBeq (a b : Json) : Bool :=
  match a, b with
  | .null, .null => true
  | .bool x, .bool y => x == y
  | .num x, .num y => x == y
  | .str x, .str y => x == y
  | _, _ => false

/-- The dict comprehension at scraper.py line 127:
id mapped to name plus ", " plus country for each entry of
data.get("locations", []).  Accessing a missing key raises; an unhashable
id raises at insertion; a duplicate id overwrites the earlier entry
(represented by keeping the pairs in order and reading the last match). -/
def buildLocations (locs : List Json) : Except String (List (Json × String)) :=
  locs.mapM (fun loc => do
    let id ← jIndex loc "id"
    let name ← jIndex loc "name" >>= pyStr?
    let country ← jIndex loc "country" >>= pyStr?
    if isScalar id then pure (id, name ++ ", " ++ country)
    else Except.error "TypeError: unhashable type")

/-- locations.get(k, default): the value of the last pair whose key equals
k (Python dict insertion overwrites), the default when no pair matches, a
TypeError when the lookup key is unhashable. -/
def pyDictGet (d : List (Json × String)) (k : Json) (dflt : String) :
    Except String String :=
  if isScalar k then
    .ok ((d.foldl (fun acc kv => if scalarBeq kv.1 k then some kv.2 else acc) none).getD dflt)
  else .error "TypeError: unhashable type"

/-- Python "k in j" for a string k: key test on dicts, membership on
lists, substring test on strings, TypeError otherwise. -/
def pyInKey (k : String) (j : Json) : Except String Bool :=
  match j with
  | .obj kvs => .ok (kvs.any (fun kv => kv.1 == k))
  | .arr xs => .ok (xs.any (fun x => scalarBeq x (.str k)))
  | .str s => .ok (hasSubstr s k)
  | _ => .error "TypeError: argument is not iterable"

/-- Python j[-1] (only reached on truthy values in the source). -/
def pyLast : Json → Except String Json
  | .arr xs =>
    match xs.getLast? with
    | some x => .ok x
    | none => .error "IndexError: list index out of range"
  | .str s =>
    match s.data.getLast? with
    | some c => .ok (.str (String.singleton c))
    | none => .error "IndexError: string index out of range"
  | _ => .error "TypeError: value is not subscriptable"

/-- validate_response (scraper.py lines 114-118): False on non-dicts, True
on every dict; no other field is examined. -/
def validate_response (data : Json) : Bool := isObj data

/-- extract_key_info (scraper.py lines 120-177), field by field in source
order: the metadata gets, the locations dict comprehension, the route
summary guarded by "prepol" / "pod" membership, the containers loop with
events[-1], the vessels comprehension, and the final summary dict. -/
def extract_key_info (api_data : Json) : Except String Json := do
  let data ← jGetD api_data "data" (.obj [])
  let metadata ← jGetD data "metadata" (.obj [])
  let route ← jGetD data "route" (.obj [])
  let locsJ ← jGetD data "locations" (.arr [])
  let locItems ← jIter locsJ
  let locations ← buildLocations locItems
  let hasPrepol ← pyInKey "prepol" route
  let part1 : List (String × Json) ←
    if hasPrepol then do
      let prepol ← jIndex route "prepol"
      let locRef ← jIndex prepol "location"
      let origin ← pyDictGet locations locRef "Unknown"
      let dep ← jIndex prepol "date"
      pure [("origin", Json.str origin), ("departure_date", dep)]
    else pure []
  let hasPod ← pyInKey "pod" route
  let part2 : List (String × Json) ←
    if hasPod then do
      let pod ← jIndex route "pod"
      let locRef ← jIndex pod "location"
      let dest ← pyDictGet locations locRef "Unknown"
      let eta ← jIndex pod "date"
      let etaP ← jGetD pod "predictive_eta" .null
      pure [("destination", Json.str dest), ("eta", eta), ("eta_predictive", etaP)]
    else pure []
  let route_summary := Json.obj (part1 ++ part2)
  let containersJ ← jGetD data "containers" (.arr [])
  let contItems ← jIter containersJ
  let containers_summary ← contItems.mapM (fun container => do
    let events ← jGetD container "events" (.arr [])
    let latest_event ← if truthy events then pyLast events else pure (Json.obj [])
    let number ← jIndex container "number"
    let ctype ← jGetD container "size_type" (.str "Unknown")
    let status ← jIndex container "status"
    let desc ← jGetD latest_event "description" .null
    let date ← jGetD latest_event "date" .null
    let locRef ← jGetD latest_event "location" .null
    let loc ← pyDictGet locations locRef "Unknown"
    pure (Json.obj [("number", number), ("type", ctype), ("status", status),
      ("latest_event", Json.obj [("description", desc), ("date", date),
        ("location", Json.str loc)])]))
  let vesselsJ ← jGetD data "vessels" (.arr [])
  let vesselItems ← jIter vesselsJ
  let vessels_summary ← vesselItems.mapM (fun v => do
    let name ← jIndex v "name"
    let imo ← jGetD v "imo" .null
    let flag ← jGetD v "flag" .null
    pure (Json.obj [("name", name), ("imo", imo), ("flag", flag)]))
  let tn ← jGetD metadata "number" .null
  let sl ← jGetD metadata "sealine_name" .null
  let st ← jGetD metadata "status" .null
  let ua ← jGetD metadata "updated_at" .null
  pure (Json.obj [("tracking_number", tn), ("shipping_line", sl), ("status", st),
    ("updated_at", ua), ("route", route_summary),
    ("containers", Json.arr containers_summary),
    ("vessels", Json.arr vessels_summary),
    ("total_containers", Json.num containers_summary.length)])

/-!
The HTML summary of searates_scraper.py _extract_basic_data (lines
314-421).  The BeautifulSoup lookups are external page observations and
enter the embedding as inputs; the date-section logic (lines 400-416) and
the shape of the returned dict (lines 318-336) are embedded from the
source. -/

/-- Python str.strip: whitespace removed from both ends. -/
def isPySpace (c : Char) : Bool :=
  c == ' ' || c == '\t' || c == '\n' || c == '\r'

def pyStrip (s : String) : String :=
  ⟨((s.data.dropWhile isPySpace).reverse.dropWhile isPySpace).reverse⟩

/-- Python str.replace for a non-empty pattern, with an explicit bound on
the scan length (the pattern is always "ATD"/"ATA"/"ETD"/"ETA" here). -/
def replaceAux (pat rep : List Char) : Nat → List Char → List Char
  | _, [] => []
  | 0, l => l
  | Nat.succ n, c :: cs =>
    if List.isPrefixOf pat (c :: cs) then
      rep ++ replaceAux pat rep n (List.drop (pat.length - 1) cs)
    else c :: replaceAux pat rep n cs

def pyReplace (s pat rep : String) : String :=
  if pat.isEmpty then s else ⟨replaceAux pat.data rep.data s.data.length s.data⟩

/-- The four date fields of the tracking_data dict, all initialised to
None (lines 327-330). -/
structure DateFields where
  actual_departure : Option String
  actual_arrival : Option String
  estimated_departure : Option String
  estimated_arrival : Option String

/-- One pass of the date-section loop body (lines 404-413): the first of
ATD / ATA / ETD / ETA contained in the text wins, the marker is removed
and the remainder stripped. -/
def applyDateText (d : DateFields) (t : String) : DateFields :=
  if hasSubstr t "ATD" then
    ⟨some (pyStrip (pyReplace t "ATD" "")), d.actual_arrival,
      d.estimated_departure, d.estimated_arrival⟩
  else if hasSubstr t "ATA" then
    ⟨d.actual_departure, some (pyStrip (pyReplace t "ATA" "")),
      d.estimated_departure, d.estimated_arrival⟩
  else if hasSubstr t "ETD" then
    ⟨d.actual_departure, d.actual_arrival,
      some (pyStrip (pyReplace t "ETD" "")), d.estimated_arrival⟩
  else if hasSubstr t "ETA" then
    ⟨d.actual_departure, d.actual_arrival,
      d.estimated_departure, some (pyStrip (pyReplace t "ETA" ""))⟩
  else d

/-- The date-section loop (lines 403-413) over the texts found in the
page, starting from the all-None initialisation. -/
def extractDates (texts : List String) : DateFields :=
  texts.foldl applyDateText ⟨none, none, none, none⟩

/-- Python "a or b" on optional strings: None and the empty string are
falsy. -/
def pyOrStr : Option String → Option String → Option String
  | some s, b => if s.isEmpty then b else some s
  | none, b => b

/-- The departure value of the progress line at line 415:
actual_departure or estimated_departure or "N/A". -/
def departureDisplay (d : DateFields) : String :=
  (pyOrStr d.actual_departure (pyOrStr d.estimated_departure (some "N/A"))).getD "N/A"

/-- The arrival value of the progress line at line 416. -/
def arrivalDisplay (d : DateFields) : String :=
  (pyOrStr d.actual_arrival (pyOrStr d.estimated_arrival (some "N/A"))).getD "N/A"

def optStr : Option String → Json
  | some s => .str s
  | none => .null

/-- The tracking_data dict of _extract_basic_data, keys in source
insertion order (lines 318-336), with the soup-derived fields as inputs
typed as the source produces them (get_text strings or None, an int
container count, json.loads values for the coordinates) and the date
fields filled by extractDates. -/
def basicDataJson (ref refType status carrier : Option String)
    (containerCount : Int) (containerType origin dest : Option String)
    (coordFrom coordTo : Json) (d : DateFields)
    (routeEvents vessels containers : List Json) (scrapedAt : String) : Json :=
  Json.obj [("reference_number", optStr ref), ("reference_type", optStr refType),
    ("status", optStr status), ("carrier", optStr carrier),
    ("container_count", Json.num containerCount),
    ("container_type", optStr containerType),
    ("origin", optStr origin), ("destination", optStr dest),
    ("actual_departure", optStr d.actual_departure),
    ("actual_arrival", optStr d.actual_arrival),
    ("estimated_departure", optStr d.estimated_departure),
    ("estimated_arrival", optStr d.estimated_arrival),
    ("coordinates", Json.obj [("from", coordFrom), ("to", coordTo)]),
    ("route_events", Json.arr routeEvents), ("vessels", Json.arr vessels),
    ("containers", Json.arr containers), ("scraped_at", Json.str scrapedAt)]

def isBool : Json → Bool
  | .bool _ => true
  | _ => false

/-- Whether a summary record has any boolean-valued top-level field (a
candidate "which one was used" flag). -/
def hasTopLevelBool : Json → Bool
  | .obj kvs => kvs.any (fun kv => isBool kv.2)
  | _ => false

/-!
track_bol_with_api (searates_scraper.py lines 24-99) and the
instrumentation installer _enable_network_capture (lines 101-163). -/

/-- The calls track_bol_with_api makes, in source order. -/
inductive Step where
  | enableNetworkCapture
  | openPage
  | clickCaptcha
  | waitForData
  | extractBasicData
  | vesselTab
  | containersTab
  | getCaptured
  | screenshot
deriving DecidableEq, BEq

/-- The call sequence of track_bol_with_api (lines 41-84). -/
def trackBolSteps : List Step :=
  [.enableNetworkCapture, .openPage, .clickCaptcha, .waitForData,
   .extractBasicData, .vesselTab, .containersTab, .getCaptured, .screenshot]

/-- The two driver primitives _enable_network_capture calls. -/
structure InstallPrims where
  /-- execute_cdp_cmd Network.enable (line 108). -/
  networkEnable : Except String Unit
  /-- execute_cdp_cmd Page.addScriptToEvaluateOnNewDocument (line 157). -/
  addScriptOnNewDocument : Except String Unit

/-- The observable effect of _enable_network_capture: which hooks got
armed and the warning printed by its except handler. -/
structure InstallResult where
  cdpEnabled : Bool
  interceptorInjected : Bool
  warning : Option String

/-- _enable_network_capture (lines 101-163): enable the CDP Network
domain, then inject the in-page interceptor; the whole body is inside one
try/except, so a failure of either primitive is absorbed into a printed
warning and the method always returns (the raised error never escapes to
track_bol_with_api). -/
def enableNetworkCapture (p : InstallPrims) : InstallResult :=
  match p.networkEnable with
  | .error e => ⟨false, false, some e⟩
  | .ok _ =>
    match p.addScriptOnNewDocument with
    | .error e => ⟨true, false, some e⟩
    | .ok _ => ⟨true, true, none⟩

/-!  Concrete fixtures used by the counterexamples and witnesses. -/

/-- A log entry for the target endpoint with HTTP status 200. -/
def logOk : RawLog :=
  some ⟨some "Network.responseReceived", some targetApi, some 200, some "req-1"⟩

/-- A log entry for the target endpoint with a rate-limited HTTP status. -/
def log429 : LogMsg :=
  ⟨some "Network.responseReceived", some targetApi, some 429, some "req-429"⟩

/-- Session for claim C1: the in-page buffer read raises, while the CDP
replay has everything it needs to capture. -/
def sessionC1 : Session :=
  ⟨.error "ExecutionFailure", .ok [targetApi], .ok [logOk],
   fun _ => .ok (Json.obj [("status", Json.str "success")]), .ok Json.null⟩

/-- Session for the C1 witness: the buffer holds a success payload while
every later primitive errors. -/
def sessionC1w : Session :=
  ⟨.ok (Json.obj [("status", Json.str "success")]), .error "late", .error "late",
   fun _ => .error "late", .error "late"⟩

/-- Session for the C1 witness: the buffer is empty, the CDP log read
raises, and the cached fetch would capture. -/
def sessionC1w2 : Session :=
  ⟨.ok Json.null, .ok [targetApi], .error "log type performance not found",
   fun _ => .error "late", .ok (Json.obj [("status", Json.str "success")])⟩

/-- Session for claim C2: every driver call succeeds and yields no data. -/
def sessionC2 : Session :=
  ⟨.ok Json.null, .ok [], .ok [], fun _ => .ok Json.null, .ok Json.null⟩

/-- Payload for claim C3: the rate-limit sentinel together with a success
status. -/
def payloadC3 : Json :=
  Json.obj [("status", Json.str "success"), ("message", Json.str "API_KEY_LIMIT_REACHED")]

def sessionC3 : Session :=
  ⟨.ok payloadC3, .ok [], .ok [], fun _ => .ok Json.null, .ok Json.null⟩

/-- Payload for the C3 witness: the sentinel without a success status. -/
def payloadC3w : Json := Json.obj [("message", Json.str "API_KEY_LIMIT_REACHED")]

def sessionC3w : Session :=
  ⟨.ok payloadC3w, .ok [], .ok [], fun _ => .ok Json.null, .ok Json.null⟩

/-- Payload for claim C5: a dict (hence Valid for validate_response) whose
locations list has an entry without the id field. -/
def payloadC5bad : Json :=
  Json.obj [("data", Json.obj [("locations", Json.arr [Json.obj []])])]

/-- Payload whose optional subsections are all present and empty. -/
def payloadC5empty : Json :=
  Json.obj [("status", Json.str "success"),
    ("data", Json.obj [("metadata", Json.obj []), ("route", Json.obj []),
      ("locations", Json.arr []), ("containers", Json.arr []), ("vessels", Json.arr [])])]

/-- The summary extract_key_info builds when the data section carries no
information: every absent metadata field appears as an explicit null. -/
def emptySummaryJson : Json :=
  Json.obj [("tracking_number", Json.null), ("shipping_line", Json.null),
    ("status", Json.null), ("updated_at", Json.null), ("route", Json.obj []),
    ("containers", Json.arr []), ("vessels", Json.arr []),
    ("total_containers", Json.num 0)]

/-- The date-section scenario of claim C6: no ATD text, one ETD text. -/
def dateScenario : DateFields := extractDates ["ETD 2024-01-01T00:00Z"]

/-- The tracking_data record _extract_basic_data builds in the C6
scenario page (no other markup found). -/
def summaryScenario : Json :=
  basicDataJson none none none none 0 none none none Json.null Json.null
    dateScenario [] [] [] "2024-05-01T00:00:00"

/-- A location entry of the synthetic round-trip payload. -/
def locEntry (i n c : String) : Json :=
  Json.obj [("id", Json.str i), ("name", Json.str n), ("country", Json.str c)]

/-- The synthetic round-trip payload of claim C7: two locations L1/L2, a
route referencing them, and a container event referencing the dangling
key L9. -/
def roundTripPayload : Json :=
  Json.obj [("status", Json.str "success"),
    ("data", Json.obj [
      ("metadata", Json.obj [("number", Json.str "BOL777"),
        ("sealine_name", Json.str "TestLine"), ("status", Json.str "IN_TRANSIT"),
        ("updated_at", Json.str "2024-03-01")]),
      ("locations", Json.arr [locEntry "L1" "Shanghai" "China",
        locEntry "L2" "Rotterdam" "Netherlands"]),
      ("route", Json.obj [
        ("prepol", Json.obj [("location", Json.str "L1"), ("date", Json.str "2024-01-01")]),
        ("pod", Json.obj [("location", Json.str "L2"), ("date", Json.str "2024-02-01")])]),
      ("containers", Json.arr [Json.obj [("number", Json.str "ABCD1234567"),
        ("status", Json.str "in_transit"),
        ("events", Json.arr [Json.obj [("description", Json.str "Loaded"),
          ("date", Json.str "2024-01-02"), ("location", Json.str "L9")]])]]),
      ("vessels", Json.arr [Json.obj [("name", Json.str "EVER ACE")]])])]

/-- The summary extract_key_info produces for roundTripPayload: both route
endpoints resolved through the location lookup, the dangling event
reference L9 resolved to "Unknown". -/
def roundTripSummary : Json :=
  Json.obj [("tracking_number", Json.str "BOL777"),
    ("shipping_line", Json.str "TestLine"), ("status", Json.str "IN_TRANSIT"),
    ("updated_at", Json.str "2024-03-01"),
    ("route", Json.obj [("origin", Json.str "Shanghai, China"),
      ("departure_date", Json.str "2024-01-01"),
      ("destination", Json.str "Rotterdam, Netherlands"),
      ("eta", Json.str "2024-02-01"), ("eta_predictive", Json.null)]),
    ("containers", Json.arr [Json.obj [("number", Json.str "ABCD1234567"),
      ("type", Json.str "Unknown"), ("status", Json.str "in_transit"),
      ("latest_event", Json.obj [("description", Json.str "Loaded"),
        ("date", Json.str "2024-01-02"), ("location", Json.str "Unknown")])]]),
    ("vessels", Json.arr [Json.obj [("name", Json.str "EVER ACE"),
      ("imo", Json.null), ("flag", Json.null)]]),
    ("total_containers", Json.num 1)]

/-- Session for the C8 witness: the install failed, so the buffer is empty
and the performance log is unavailable, but the cached fetch succeeds. -/
def sessionC8 : Session :=
  ⟨.ok Json.null, .ok [targetApi], .error "log type performance not found",
   fun _ => .error "late", .ok (Json.obj [("status", Json.str "success")])⟩

/-- Session for the C9 witness: the buffer holds a dict with neither
marker, and the later methods find nothing. -/
def sessionC9 : Session :=
  ⟨.ok (Json.obj [("status", Json.str "error")]), .ok [], .ok [],
   fun _ => .ok Json.null, .ok Json.null⟩

/-- Log list for the C10 witness: a rate-limited target response precedes
an unparsable entry and a 200 target response. -/
def logsC10 : List RawLog := [some log429, none, logOk]

/-!  Helper lemmas shared by the claim theorems. -/

lemma gcr_jsError (s : Session) (e : String) (h : s.jsBackup = .error e) :
    getCapturedResponse s = .failure e "HTML data captured successfully" none := by
  simp [getCapturedResponse, h]

lemma gcr_success (s : Session) (j : Json) (h : s.jsBackup = .ok j)
    (ht : truthy j = true) (ho : isObj j = true)
    (hs : isStrEq (objGet j "status") "success" = true) :
    getCapturedResponse s = .success "javascript_backup" j := by
  simp [getCapturedResponse, h, ht, ho, hs]

lemma gcr_ratelimit (s : Session) (j : Json) (h : s.jsBackup = .ok j)
    (ht : truthy j = true) (ho : isObj j = true)
    (hs : isStrEq (objGet j "status") "success" = false)
    (hm : isStrEq (objGet j "message") "API_KEY_LIMIT_REACHED" = true) :
    getCapturedResponse s =
      .failure "API_KEY_LIMIT_REACHED" "Free tier: 1 search/day" (some j) := by
  simp [getCapturedResponse, h, ht, ho, hs, hm]

/-- When the buffer value triggers neither marker branch, method 1 falls
through to method 2 (whether or not the value is a truthy dict). -/
lemma gcr_fallthrough (s : Session) (j : Json) (h : s.jsBackup = .ok j)
    (hs : isStrEq (objGet j "status") "success" = false)
    (hm : isStrEq (objGet j "message") "API_KEY_LIMIT_REACHED" = false) :
    getCapturedResponse s = method2 s := by
  cases hg : truthy j && isObj j with
  | true =>
    have ht : truthy j = true := (Bool.and_eq_true _ _ ▸ hg).1
    have ho : isObj j = true := (Bool.and_eq_true _ _ ▸ hg).2
    simp [getCapturedResponse, h, ht, ho, hs, hm]
  | false => simp [getCapturedResponse, h, hg]

lemma m2_noentries (s : Session) (ns : List String)
    (h1 : s.perfNames = .ok ns) (h2 : perfFilter ns = []) :
    method2 s = method3 s := by
  simp [method2, h1, h2]

lemma m2_logError (s : Session) (ns : List String) (a : String) (l : List String)
    (e : String) (h1 : s.perfNames = .ok ns) (h2 : perfFilter ns = a :: l)
    (h3 : s.getLog = .error e) : method2 s = method3 s := by
  simp [method2, h1, h2, h3]

lemma m3_noentries (s : Session) (ns : List String)
    (h1 : s.perfNames = .ok ns) (h2 : perfFilter ns = []) :
    method3 s = exhaustedResult := by
  simp [method3, h1, h2]

lemma m3_capture (s : Session) (ns : List String) (a : String) (l : List String)
    (j : Json) (h1 : s.perfNames = .ok ns) (h2 : perfFilter ns = a :: l)
    (h3 : s.cachedFetch = .ok j) (ht : truthy j = true) (ho : isObj j = true) :
    method3 s = .success "cached_fetch" j := by
  simp [method3, h1, h2, h3, ht, ho]

/-- After an empty buffer and a raising log read, the cache-backed fetch
still captures. -/
lemma cachedCaptureAfterLogError (s : Session) (ns : List String) (a : String)
    (l : List String) (e : String) (j : Json)
    (h0 : s.jsBackup = .ok Json.null) (h1 : s.perfNames = .ok ns)
    (h2 : perfFilter ns = a :: l) (h3 : s.getLog = .error e)
    (h4 : s.cachedFetch = .ok j) (ht : truthy j = true) (ho : isObj j = true) :
    getCapturedResponse s = .success "cached_fetch" j := by
  rw [gcr_fallthrough s Json.null h0 rfl rfl, m2_logError s ns a l e h1 h2 h3,
    m3_capture s ns a l j h1 h2 h4 ht ho]

lemma foldl_no_hit (k : Json) (d : List (Json × String)) (acc : Option String)
    (h : d.all (fun kv => !scalarBeq kv.1 k) = true) :
    d.foldl (fun acc kv => if scalarBeq kv.1 k then some kv.2 else acc) acc = acc := by
  induction d generalizing acc with
  | nil => rfl
  | cons x xs ih =>
    rw [List.all_cons, Bool.and_eq_true, Bool.not_eq_true'] at h
    rw [List.foldl_cons, h.1]
    simp only [Bool.false_eq_true, if_false]
    exact ih acc h.2

lemma scalarBeq_refl (k : Json) (h : isScalar k = true) : scalarBeq k k = true := by
  cases k <;> simp_all [isScalar, scalarBeq]

lemma find_decomp {α : Type} (p : α → Bool) (l : List α) (x : α)
    (h : l.find? p = some x) :
    ∃ pre post, l = pre ++ x :: post ∧ (∀ y ∈ pre, p y = false) ∧ p x = true := by
  induction l with
  | nil => simp [List.find?] at h
  | cons a as ih =>
    cases hpa : p a with
    | true =>
      rw [List.find?_cons_of_pos _ hpa] at h
      cases h
      exact ⟨[], as, rfl, ⟨by simp, hpa⟩⟩
    | false =>
      rw [List.find?_cons_of_neg _ (by simp [hpa])] at h
      obtain ⟨pre, post, heq, hpre, hx⟩ := ih h
      refine ⟨a :: pre, post, by rw [heq, List.cons_append], ?_, hx⟩
      intro y hy
      rcases List.mem_cons.mp hy with hya | hy2
      · exact hya ▸ hpa
      · exact hpre y hy2

/-!  Claim theorems. -/

/-- Claim C1, counterexample: when the first strategy (the in-page buffer
read) raises while the second strategy has everything it needs to produce
a Captured result, the coordinator does not continue to the next strategy:
it returns the function-level error dict (methods 2 and 3 are never run),
even though method 2 run on the same session would capture. -/
theorem c1_counterexample :
    getCapturedResponse sessionC1 =
      CapResult.failure "ExecutionFailure" "HTML data captured successfully" none ∧
    CapResult.isSuccess (getCapturedResponse sessionC1) = false ∧
    method2 sessionC1 =
      CapResult.success "cdp_performance_logs" (Json.obj [("status", Json.str "success")]) :=
  ⟨rfl, rfl, rfl⟩

/-- Claim C1 (amended): once a strategy returns Captured no later strategy
is invoked (the buffer-read success determines the outcome whatever the
later primitives would do); an error raised by the second strategy is
absorbed and the third strategy can still capture and have its payload
returned; but an error raised by the first strategy is not absorbed — the
coordinator immediately returns an error outcome without invoking the
later strategies. -/
theorem c1_theorem :
    (∀ (s : Session) (j : Json), s.jsBackup = .ok j → truthy j = true →
      isObj j = true → isStrEq (objGet j "status") "success" = true →
      getCapturedResponse s = .success "javascript_backup" j) ∧
    (∀ (s : Session) (ns : List String) (a : String) (l : List String)
      (e : String) (j : Json), s.jsBackup = .ok Json.null →
      s.perfNames = .ok ns → perfFilter ns = a :: l → s.getLog = .error e →
      s.cachedFetch = .ok j → truthy j = true → isObj j = true →
      getCapturedResponse s = .success "cached_fetch" j) ∧
    (∀ (s : Session) (e : String), s.jsBackup = .error e →
      getCapturedResponse s = .failure e "HTML data captured successfully" none) := by
  refine ⟨?_, ?_, ?_⟩
  · intro s j h ht ho hs
    exact gcr_success s j h ht ho hs
  · intro s ns a l e j h0 h1 h2 h3 h4 ht ho
    exact cachedCaptureAfterLogError s ns a l e j h0 h1 h2 h3 h4 ht ho
  · intro s e h
    exact gcr_jsError s e h

/-- Claim C1, witness: the three parts of c1_theorem at concrete
sessions. -/
theorem c1_witness :
    getCapturedResponse sessionC1w =
      CapResult.success "javascript_backup" (Json.obj [("status", Json.str "success")]) ∧
    getCapturedResponse sessionC1w2 =
      CapResult.success "cached_fetch" (Json.obj [("status", Json.str "success")]) ∧
    getCapturedResponse sessionC1 =
      CapResult.failure "ExecutionFailure" "HTML data captured successfully" none :=
  ⟨c1_theorem.1 sessionC1w _ rfl rfl rfl rfl,
   c1_theorem.2.1 sessionC1w2 [targetApi] targetApi []
     "log type performance not found" _ rfl rfl (by decide) rfl rfl rfl rfl,
   c1_theorem.2.2 sessionC1 "ExecutionFailure" rfl⟩

/-- Claim C2, counterexample: with every driver call succeeding and
yielding no data, the coordinator returns the strategy-exhausted dict; its
reason field is "All capture methods exhausted", not "timeout", and the
code has no maxWaitMs polling loop at all (the sleep before the single
pass is a fixed 10 seconds at line 52). -/
theorem c2_counterexample :
    getCapturedResponse sessionC2 = exhaustedResult ∧
    CapResult.errorField (getCapturedResponse sessionC2) =
      some "All capture methods exhausted" ∧
    (CapResult.errorField (getCapturedResponse sessionC2) == some "timeout") = false :=
  ⟨rfl, rfl, rfl⟩

/-- Claim C2 (amended): the coordinator is a single total pass over the
three methods (so it always terminates); whenever the buffer is empty and
no target entry is in the performance log, every attempt call having
succeeded with no data, it returns the not-found outcome whose reason is
"All capture methods exhausted" (strategy exhaustion), not "timeout". -/
theorem c2_theorem :
    ∀ (s : Session) (ns : List String), s.jsBackup = .ok Json.null →
      s.perfNames = .ok ns → perfFilter ns = [] →
      getCapturedResponse s = exhaustedResult := by
  intro s ns h0 h1 h2
  rw [gcr_fallthrough s Json.null h0 rfl rfl, m2_noentries s ns h1 h2,
    m3_noentries s ns h1 h2]

/-- Claim C2, witness: c2_theorem at the concrete empty session. -/
theorem c2_witness : getCapturedResponse sessionC2 = exhaustedResult :=
  c2_theorem sessionC2 [] rfl rfl rfl

/-- Claim C3, counterexample: a payload whose message field is the
rate-limit sentinel but whose status field is "success" is classified as a
captured success (the status test at line 177 runs before the sentinel
test at line 187), not as the rate-limit soft failure. -/
theorem c3_counterexample :
    getCapturedResponse sessionC3 = CapResult.success "javascript_backup" payloadC3 ∧
    CapResult.isSuccess (getCapturedResponse sessionC3) = true ∧
    CapResult.errorField (getCapturedResponse sessionC3) = none :=
  ⟨rfl, rfl, rfl⟩

/-- Claim C3 (amended): a truthy dict payload whose message field equals
"API_KEY_LIMIT_REACHED" is classified as the rate-limit soft failure —
never as a captured success and never discarded — provided its status
field does not equal "success"; when status equals "success" the status
branch wins and the payload is returned as captured. -/
theorem c3_theorem :
    ∀ (s : Session) (j : Json), s.jsBackup = .ok j → truthy j = true →
      isObj j = true → isStrEq (objGet j "status") "success" = false →
      isStrEq (objGet j "message") "API_KEY_LIMIT_REACHED" = true →
      getCapturedResponse s =
        .failure "API_KEY_LIMIT_REACHED" "Free tier: 1 search/day" (some j) := by
  intro s j h ht ho hs hm
  exact gcr_ratelimit s j h ht ho hs hm

/-- Claim C3, witness: c3_theorem at a concrete sentinel payload. -/
theorem c3_witness :
    getCapturedResponse sessionC3w =
      CapResult.failure "API_KEY_LIMIT_REACHED" "Free tier: 1 search/day" (some payloadC3w) :=
  c3_theorem sessionC3w payloadC3w rfl rfl rfl rfl rfl

/-- Claim C4, counterexample: a structured object whose top-level status
field is "error" (not the "success" sentinel) is still classified as valid
by validate_response, which contradicts the claim that such payloads are
classified as Malformed; the non-object half of the claim does hold. -/
theorem c4_counterexample :
    validate_response (Json.obj [("status", Json.str "error")]) = true ∧
    validate_response (Json.str "nope") = false :=
  ⟨rfl, rfl⟩

/-- Claim C4 (amended): validate_response classifies every payload that is
not a structured object as invalid, and classifies every structured object
as valid — it performs no check of the status field at all. -/
theorem c4_theorem :
    (∀ j : Json, isObj j = false → validate_response j = false) ∧
    (∀ j : Json, isObj j = true → validate_response j = true) :=
  ⟨fun _ h => h, fun _ h => h⟩

/-- Claim C4, witness: c4_theorem at a non-object and at an object. -/
theorem c4_witness :
    validate_response (Json.num 3) = false ∧
    validate_response (Json.obj [("status", Json.str "error")]) = true :=
  ⟨c4_theorem.1 (Json.num 3) rfl,
   c4_theorem.2 (Json.obj [("status", Json.str "error")]) rfl⟩

/-- Claim C5, counterexample: payloadC5bad is a dict, hence classified
Valid by validate_response, yet extract_key_info raises a KeyError on it
(its locations entry has no id field), so the normalizer is not total over
Valid payloads. -/
theorem c5_counterexample :
    validate_response payloadC5bad = true ∧
    extract_key_info payloadC5bad = .error "KeyError: id" :=
  ⟨rfl, rfl⟩

/-- Claim C5 (amended): the normalizer never throws on a Valid payload
whose optional subsections are absent or empty — absent metadata fields
appear in the summary as explicit nulls and empty subsections as empty
sequences — but it is not total over all Valid payloads: an entry of a
non-empty subsection that lacks a required field (for example a location
without id) raises, and absent route endpoints are omitted from the route
summary rather than mapped to unknown markers. -/
theorem c5_theorem :
    (∀ kvs : List (String × Json), kvs.find? (fun kv => kv.1 == "data") = none →
      extract_key_info (Json.obj kvs) = .ok emptySummaryJson) ∧
    extract_key_info payloadC5empty = .ok emptySummaryJson := by
  constructor
  · intro kvs h
    have hd : jGetD (Json.obj kvs) "data" (Json.obj []) = .ok (Json.obj []) := by
      simp [jGetD, jGet, h]
    unfold extract_key_info
    rw [hd]
    rfl
  · rfl

/-- Claim C5, witness: c5_theorem at a dict without a data section. -/
theorem c5_witness :
    extract_key_info (Json.obj [("status", Json.str "success")]) = .ok emptySummaryJson :=
  c5_theorem.1 [("status", Json.str "success")] rfl

lemma isBool_optStr (o : Option String) : isBool (optStr o) = false := by
  cases o <;> rfl

/-- Claim C6, counterexample: in the scenario (actual departure absent,
estimated departure "2024-01-01T00:00Z") the summary record keeps the two
timestamps in separate fields (actual_departure null) and carries no
boolean-valued top-level field at all, so it exposes no which-was-used
flag indicating estimated; the preference exists only in the derived
progress-line value, which does equal the estimated timestamp. -/
theorem c6_counterexample :
    dateScenario.actual_departure = none ∧
    dateScenario.estimated_departure = some "2024-01-01T00:00Z" ∧
    hasTopLevelBool summaryScenario = false ∧
    departureDisplay dateScenario = "2024-01-01T00:00Z" :=
  ⟨rfl, rfl, rfl, rfl⟩

/-- Claim C6 (amended): the summary stores actual and estimated timestamps
as separate nullable fields and never exposes a boolean which-was-used
flag; the actual-over-estimated preference appears only in the derived
display value (a Python or-chain, under which the empty string also counts
as absent): a non-empty actual timestamp is used, otherwise a non-empty
estimated timestamp; which one was used is inferable only from the
null-ness of the actual field. -/
theorem c6_theorem :
    (∀ (d : DateFields) (s : String), d.actual_departure = some s → s ≠ "" →
      departureDisplay d = s) ∧
    (∀ (d : DateFields) (s : String), d.actual_departure = none →
      d.estimated_departure = some s → s ≠ "" → departureDisplay d = s) ∧
    (∀ (ref refType status carrier : Option String) (containerCount : Int)
      (containerType origin dest : Option String) (coordFrom coordTo : Json)
      (d : DateFields) (routeEvents vessels containers : List Json)
      (scrapedAt : String),
      hasTopLevelBool (basicDataJson ref refType status carrier containerCount
        containerType origin dest coordFrom coordTo d routeEvents vessels
        containers scrapedAt) = false) := by
  refine ⟨?_, ?_, ?_⟩
  · intro d s h1 hne
    have hE : s.isEmpty = false := by
      cases hE : s.isEmpty with
      | false => rfl
      | true => exact absurd ((String.isEmpty_iff s).mp hE) hne
    simp [departureDisplay, pyOrStr, h1, hE]
  · intro d s h0 h1 hne
    have hE : s.isEmpty = false := by
      cases hE : s.isEmpty with
      | false => rfl
      | true => exact absurd ((String.isEmpty_iff s).mp hE) hne
    simp [departureDisplay, pyOrStr, h0, h1, hE]
  · intro ref refType status carrier containerCount containerType origin dest
      coordFrom coordTo d routeEvents vessels containers scrapedAt
    simp [basicDataJson, hasTopLevelBool, isBool_optStr]
    exact ⟨rfl, rfl, rfl, rfl, rfl, rfl⟩

/-- Claim C6, witness: c6_theorem at concrete date fields, including the
scenario fields. -/
theorem c6_witness :
    departureDisplay ⟨some "2024-02-02", none, some "2024-02-09", none⟩ = "2024-02-02" ∧
    departureDisplay dateScenario = "2024-01-01T00:00Z" ∧
    hasTopLevelBool summaryScenario = false :=
  ⟨c6_theorem.1 ⟨some "2024-02-02", none, some "2024-02-09", none⟩ "2024-02-02" rfl
     (by decide),
   c6_theorem.2.1 dateScenario "2024-01-01T00:00Z" rfl rfl (by decide),
   c6_theorem.2.2 none none none none 0 none none none Json.null Json.null
     dateScenario [] [] [] "2024-05-01T00:00:00"⟩

/-- Claim C7: extract_key_info builds one id-to-location lookup from the
flat locations list and resolves route endpoints and event locations
through .get(key, "Unknown"): a key with no matching entry resolves to
"Unknown", a key whose (last) matching entry is present resolves to that
entry rendered as "name, country", and on the synthetic round-trip payload
the origin and destination resolve to the two location names while the
dangling event reference L9 resolves to "Unknown" without raising. -/
theorem c7_theorem :
    (∀ (d : List (Json × String)) (k : Json), isScalar k = true →
      d.all (fun kv => !scalarBeq kv.1 k) = true →
      pyDictGet d k "Unknown" = .ok "Unknown") ∧
    (∀ (d1 d2 : List (Json × String)) (k : Json) (v : String), isScalar k = true →
      d2.all (fun kv => !scalarBeq kv.1 k) = true →
      pyDictGet (d1 ++ (k, v) :: d2) k "Unknown" = .ok v) ∧
    extract_key_info roundTripPayload = .ok roundTripSummary := by
  refine ⟨?_, ?_, rfl⟩
  · intro d k hk hall
    simp only [pyDictGet, hk, if_true]
    rw [foldl_no_hit k d none hall]
    rfl
  · intro d1 d2 k v hk hall
    simp only [pyDictGet, hk, if_true, List.foldl_append, List.foldl_cons]
    rw [scalarBeq_refl k hk]
    simp only [if_true]
    rw [foldl_no_hit k d2 (some v) hall]
    rfl

/-- Claim C7, witness: the lookup parts of c7_theorem at a concrete
dictionary (the one built from the round-trip payload). -/
theorem c7_witness :
    pyDictGet [(Json.str "L1", "Shanghai, China")] (Json.str "L9") "Unknown" =
      .ok "Unknown" ∧
    pyDictGet ([] ++ (Json.str "L1", "Shanghai, China") :: []) (Json.str "L1") "Unknown" =
      .ok "Shanghai, China" :=
  ⟨c7_theorem.1 [(Json.str "L1", "Shanghai, China")] (Json.str "L9") rfl (by decide),
   c7_theorem.2.1 [] [] (Json.str "L1") "Shanghai, China" rfl rfl⟩

/-- Claim C8: track_bol_with_api arms the interception hooks (the CDP
Network domain and the in-page interceptor) before it opens the page; a
failure of the low-level Network.enable call is absorbed inside
_enable_network_capture (which returns a warning instead of raising), and
the capture attempt still runs — in particular a later strategy can still
produce a Captured result. -/
theorem c8_theorem :
    trackBolSteps.indexOf Step.enableNetworkCapture <
      trackBolSteps.indexOf Step.openPage ∧
    (∀ (p : InstallPrims) (e : String), p.networkEnable = .error e →
      enableNetworkCapture p = ⟨false, false, some e⟩) ∧
    (∀ (s : Session) (ns : List String) (a : String) (l : List String)
      (e : String) (j : Json), s.jsBackup = .ok Json.null → s.perfNames = .ok ns →
      perfFilter ns = a :: l → s.getLog = .error e → s.cachedFetch = .ok j →
      truthy j = true → isObj j = true →
      getCapturedResponse s = .success "cached_fetch" j) := by
  refine ⟨by decide, ?_, ?_⟩
  · intro p e h
    simp [enableNetworkCapture, h]
  · intro s ns a l e j h0 h1 h2 h3 h4 ht ho
    exact cachedCaptureAfterLogError s ns a l e j h0 h1 h2 h3 h4 ht ho

/-- Claim C8, witness: c8_theorem at a failing install primitive and at a
session whose cached fetch still captures. -/
theorem c8_witness :
    enableNetworkCapture ⟨.error "CDP not available", .ok ()⟩ =
      ⟨false, false, some "CDP not available"⟩ ∧
    getCapturedResponse sessionC8 =
      CapResult.success "cached_fetch" (Json.obj [("status", Json.str "success")]) :=
  ⟨c8_theorem.2.1 ⟨.error "CDP not available", .ok ()⟩ "CDP not available" rfl,
   c8_theorem.2.2 sessionC8 [targetApi] targetApi [] "log type performance not found"
     (Json.obj [("status", Json.str "success")]) rfl rfl (by decide) rfl rfl rfl rfl⟩

/-- Claim C9: a buffered dict payload with neither status "success" nor
message "API_KEY_LIMIT_REACHED" yields no outcome from the first strategy:
the coordinator silently discards it and falls through to the later
strategies — when they produce nothing the attempt is reported with the
exhausted dict even though a payload had been captured, and when a later
strategy can produce a result that result is returned. -/
theorem c9_theorem :
    (∀ (s : Session) (kvs : List (String × Json)) (ns : List String),
      s.jsBackup = .ok (Json.obj kvs) →
      isStrEq (objGet (Json.obj kvs) "status") "success" = false →
      isStrEq (objGet (Json.obj kvs) "message") "API_KEY_LIMIT_REACHED" = false →
      s.perfNames = .ok ns → perfFilter ns = [] →
      getCapturedResponse s = exhaustedResult) ∧
    (∀ (s : Session) (kvs : List (String × Json)) (ns : List String) (a : String)
      (l : List String) (e : String) (j : Json),
      s.jsBackup = .ok (Json.obj kvs) →
      isStrEq (objGet (Json.obj kvs) "status") "success" = false →
      isStrEq (objGet (Json.obj kvs) "message") "API_KEY_LIMIT_REACHED" = false →
      s.perfNames = .ok ns → perfFilter ns = a :: l → s.getLog = .error e →
      s.cachedFetch = .ok j → truthy j = true → isObj j = true →
      getCapturedResponse s = .success "cached_fetch" j) := by
  constructor
  · intro s kvs ns h0 hs hm h1 h2
    rw [gcr_fallthrough s _ h0 hs hm, m2_noentries s ns h1 h2,
      m3_noentries s ns h1 h2]
  · intro s kvs ns a l e j h0 hs hm h1 h2 h3 h4 ht ho
    rw [gcr_fallthrough s _ h0 hs hm, m2_logError s ns a l e h1 h2 h3,
      m3_capture s ns a l j h1 h2 h4 ht ho]

/-- Claim C9, witness: c9_theorem at the concrete session whose buffer
holds a dict with status "error". -/
theorem c9_witness : getCapturedResponse sessionC9 = exhaustedResult :=
  c9_theorem.1 sessionC9 [("status", Json.str "error")] [] rfl rfl rfl rfl rfl

/-- Claim C10: the run_pipeline log scan selects the first logged response
whose URL contains the target substring and whose HTTP status equals 200
exactly (every earlier entry fails the test, the selected entry has status
200), and an entry with any other status never passes the test, so a
rate-limited target response is never selected by this strategy. -/
theorem c10_theorem :
    (∀ (logs : List RawLog) (rid : String),
      findRequestId logHit200 logs = some rid →
      ∃ pre m post, logs = pre ++ (some m : RawLog) :: post ∧
        (∀ l ∈ pre, logHit200 l = false) ∧ logHit200 (some m) = true ∧
        m.requestId = some rid ∧ m.status = some 200) ∧
    (∀ m : LogMsg, m.status ≠ some 200 → logHit200 (some m) = false) := by
  constructor
  · intro logs rid h
    unfold findRequestId at h
    cases hf : logs.find? logHit200 with
    | none => rw [hf] at h; simp at h
    | some l =>
      rw [hf] at h
      obtain ⟨pre, post, heq, hpre, hx⟩ := find_decomp logHit200 logs l hf
      cases l with
      | none => simp [logHit200] at hx
      | some m =>
        have hr : m.requestId = some rid := h
        refine ⟨pre, m, post, heq, hpre, hx, hr, ?_⟩
        simp only [logHit200, Bool.and_eq_true, beq_iff_eq] at hx
        exact hx.1.2
  · intro m hne
    have hY : (m.status == some 200) = false := beq_eq_false_iff_ne.mpr hne
    simp [logHit200, hY]

/-- Claim C10, witness: c10_theorem at the rate-limited log entry (its
status 429 makes the selection test false) and, directly, the scan of the
concrete log list picking the 200 entry past the 429 one. -/
theorem c10_witness :
    logHit200 (some log429) = false ∧
    findRequestId logHit200 logsC10 = some "req-1" :=
  ⟨c10_theorem.2 log429 (by decide), by decide⟩

end Scraper
